import Mathlib

/-!
Shallow embedding of the HackSkyICS anomaly-detection code paths that the
specification claims talk about.  Numeric values are modelled as exact
rationals (`ℚ`); Python / numpy floating-point special values are modelled
explicitly where a claim depends on them (see `PyFloat`).

Embedded source files:
* `src/backend/src/services/autoencoder_service.py`
  (`AutoencoderAnomalyService.predict_anomaly`, `extract_features`)
* `src/ml_training/api_server.py`
  (`RealTimeDetectionServer.process_detection`, `detect_anomaly` route)
* `src/ml_training/production_server.py` (`ProductionServer.process_detection`)
* `src/ml_training/reconstruction_autoencoder.py`
  (`GridAnomalyDetector.train` threshold computation, `detect_anomalies`,
   `prepare_features` NaN handling)
-/

/-- Python substring test (the `needle in haystack` operator) on char lists. -/
def containsSub (needle : List Char) : List Char → Bool
  | [] => needle.isEmpty
  | c :: rest => needle.isPrefixOf (c :: rest) || containsSub needle rest

/-- Python `str.lower()` on a char list. -/
def lowerStr (s : List Char) : List Char := s.map Char.toLower

/-! ## Threat-level banding (`api_server.py`, lines 231-242) -/

inductive ThreatLevel
  | NORMAL
  | LOW
  | MEDIUM
  | HIGH
  | CRITICAL
deriving DecidableEq

/-- `RealTimeDetectionServer.process_detection` threat-level banding
(`api_server.py` lines 231-242): `error_ratio = reconstruction_error /
reconstruction_threshold`, then `>10 → CRITICAL`, `>5 → HIGH`, `>2 → MEDIUM`,
else `LOW`; non-anomalies are `NORMAL`. -/
def apiThreatLevel (isAnomaly : Bool) (e thr : ℚ) : ThreatLevel :=
  if isAnomaly then
    let r := e / thr
    if 10 < r then .CRITICAL
    else if 5 < r then .HIGH
    else if 2 < r then .MEDIUM
    else .LOW
  else .NORMAL

/-- The threat-level banding as the specification words it, as a function of
the ratio `r`: `r > 10 → CRITICAL`; `5 < r ≤ 10 → HIGH`; `2 < r ≤ 5 → MEDIUM`;
`r ≤ 2 → LOW`; not-anomaly → `NORMAL`. -/
def specThreatLevel (isAnomaly : Bool) (r : ℚ) : ThreatLevel :=
  if isAnomaly then
    if 10 < r then .CRITICAL
    else if 5 < r ∧ r ≤ 10 then .HIGH
    else if 2 < r ∧ r ≤ 5 then .MEDIUM
    else .LOW
  else .NORMAL

/-! ## Backend autoencoder service (`autoencoder_service.py`) -/

/-- Mutable per-service state of `AutoencoderAnomalyService`:
`self.recent_predictions` (rolling decision window) and
`self.error_cap_threshold`.  On the first call the code initialises the pair
to `([], final_threshold)`. -/
structure SvcState where
  window : List Bool
  errorCap : ℚ
deriving DecidableEq

/-- The result dict returned by a successful `predict_anomaly` call
(`autoencoder_service.py` lines 185-196); the constant string fields
(`model_type`, `sensitivity_level`) are omitted. -/
structure SvcResult where
  is_anomaly : Bool
  anomaly_score : ℚ
  reconstruction_error : ℚ
  confidence : ℚ
  threshold : ℚ
  base_threshold : ℚ
  current_error_rate : ℚ
  error_rate_capped : Bool
deriving DecidableEq

/-- Criticality scaling (`autoencoder_service.py` lines 141-147):
`'critical' in str(criticality).lower() → ×0.6`, else
`'high' in ... → ×0.8`, else `×1.0`. -/
def critScale (crit : List Char) : ℚ :=
  if containsSub ("critical".toList) (lowerStr crit) then 3/5
  else if containsSub ("high".toList) (lowerStr crit) then 4/5
  else 1

/-- `base_threshold = 0.4` (`autoencoder_service.py` line 138). -/
def svcBaseThreshold : ℚ := 2/5

/-- Append the newest decision and evict the oldest entry once the window
exceeds 100 entries (`autoencoder_service.py` lines 158-160:
`append` then `pop(0)` when `len > 100`). -/
def pushWindow (w : List Bool) (d : Bool) : List Bool :=
  let w1 := w ++ [d]
  if 100 < w1.length then w1.tail else w1

/-- The last `n` elements of a list (used to state the FIFO property). -/
def takeLast (n : ℕ) (l : List α) : List α := l.drop (l.length - n)

/-- Confidence formula (`autoencoder_service.py` lines 180-183):
anomalous → `min((error - threshold)/threshold, 1.0)`;
normal → `max(1.0 - error/threshold, 0.1)`. -/
def svcConfidence (isA : Bool) (e t : ℚ) : ℚ :=
  if isA then min ((e - t) / t) 1 else max (1 - e / t) (1/10)

/-- The confidence formula exactly as the specification words it (used to
compare the deployed variants against the spec). -/
def specConfidence (isA : Bool) (e t : ℚ) : ℚ :=
  if isA then min ((e - t) / t) 1 else max (1 - e / t) (1/10)

/-- Decision core of `AutoencoderAnomalyService.predict_anomaly`
(`autoencoder_service.py` lines 133-196), starting from the already computed
reconstruction error: criticality-scaled threshold, initial decision, window
update, adaptive error-rate capping, confidence, and the returned dict plus
the successor state. -/
def decisionLogic (st : SvcState) (recErr : ℚ) (crit : List Char) :
    SvcResult × SvcState :=
  let ft := svcBaseThreshold * critScale crit
  let d := decide (ft < recErr)
  let w := pushWindow st.window d
  if 20 ≤ w.length then
    let rate : ℚ := (w.count true : ℚ) / (w.length : ℚ)
    if 3/20 < rate then
      let cap := ft * (11/10)
      let isA := decide (cap < recErr)
      (⟨isA, recErr, recErr, svcConfidence isA recErr cap, cap,
        svcBaseThreshold, rate, true⟩, ⟨w, cap⟩)
    else if rate < 1/10 then
      let cap := ft * (19/20)
      let isA := decide (cap < recErr)
      (⟨isA, recErr, recErr, svcConfidence isA recErr cap, cap,
        svcBaseThreshold, rate, false⟩, ⟨w, cap⟩)
    else
      (⟨d, recErr, recErr, svcConfidence d recErr ft, ft,
        svcBaseThreshold, rate, false⟩, ⟨w, st.errorCap⟩)
  else
    (⟨d, recErr, recErr, svcConfidence d recErr ft, ft,
      svcBaseThreshold, 0, false⟩, ⟨w, st.errorCap⟩)

/-! ## Neural network forward pass (eval mode vs training mode)

`IndustrialAutoencoder` / `ElectricalGridReconstructionAutoencoder` are
compositions of Linear, ReLU/Sigmoid, BatchNorm1d and Dropout layers.  We
embed a network as a list of layers; activation functions are abstract
(`ℚ → ℚ`), BatchNorm carries its affine parameters and running statistics
(`invstd` is the reciprocal of the running standard deviation), and Dropout
carries its rate.  The dropout randomness is an explicit mask stream
`ℕ → ℕ → Bool` (layer index, unit index); in eval mode (`model.eval()`,
`torch.no_grad()`) dropout is the identity and batch norm uses the running
statistics, so the mask is never consulted. -/

inductive Layer
  | linear (w : List (List ℚ)) (b : List ℚ)
  | act (f : ℚ → ℚ)
  | batchnorm (g beta mu invstd : List ℚ)
  | dropout (p : ℚ)

def dotProd (u v : List ℚ) : ℚ := (List.zipWith (· * ·) u v).sum

/-- One layer of the forward pass.  `training` is the PyTorch module mode;
`mask` is the dropout mask for this layer. -/
def layerForward (training : Bool) (mask : ℕ → Bool) (l : Layer)
    (x : List ℚ) : List ℚ :=
  match l with
  | .linear w b => List.zipWith (fun row bi => dotProd row x + bi) w b
  | .act f => x.map f
  | .batchnorm g beta mu invstd =>
      List.zipWith (fun xi p => p.1.1 * ((xi - p.2.1) * p.2.2) + p.1.2)
        x ((g.zip beta).zip (mu.zip invstd))
  | .dropout p =>
      if training then
        List.zipWith (fun xi i => if mask i then xi / (1 - p) else 0)
          x (List.range x.length)
      else x

def forwardAux (training : Bool) (mask : ℕ → ℕ → Bool) :
    ℕ → List Layer → List ℚ → List ℚ
  | _, [], x => x
  | i, l :: ls, x =>
      forwardAux training mask (i + 1) ls (layerForward training (mask i) l x)

/-- Full forward pass of the autoencoder. -/
def netForward (training : Bool) (mask : ℕ → ℕ → Bool) (layers : List Layer)
    (x : List ℚ) : List ℚ :=
  forwardAux training mask 0 layers x

/-- Per-sample reconstruction error `torch.mean((x - reconstruction) ** 2)`:
mean squared difference over the feature dimensions. -/
def mseVec (x y : List ℚ) : ℚ :=
  (List.zipWith (fun a b => (a - b) ^ 2) x y).sum / (x.length : ℚ)

/-! ## Backend feature extraction and scaling -/

/-- `self.feature_names` (`autoencoder_service.py` lines 57-61). -/
def featureNames : List (List Char) :=
  ["temperature".toList, "pressure".toList, "flow_rate".toList,
   "vibration".toList, "current".toList, "voltage".toList,
   "ph_level".toList, "conductivity".toList, "level".toList, "speed".toList]

/-- The `defaults` dict of `extract_features` with `.get(name, 0.0)`
(`autoencoder_service.py` lines 97-102). -/
def featureDefault (name : List Char) : ℚ :=
  if name = "temperature".toList then 25
  else if name = "pressure".toList then 1
  else if name = "flow_rate".toList then 100
  else if name = "vibration".toList then 1/10
  else if name = "current".toList then 5
  else if name = "voltage".toList then 220
  else if name = "ph_level".toList then 7
  else if name = "conductivity".toList then 500
  else if name = "level".toList then 50
  else if name = "speed".toList then 1800
  else 0

/-- `AutoencoderAnomalyService.extract_features` (lines 86-104): each feature
takes the sensor value when its name occurs in the lowercased sensor type,
otherwise the default. -/
def extractFeatures (sensorValue : ℚ) (sensorType : List Char) : List ℚ :=
  featureNames.map (fun fn =>
    if containsSub fn (lowerStr sensorType) then sensorValue
    else featureDefault fn)

/-- `sklearn` `StandardScaler` parameters (per-feature mean and scale). -/
structure Scaler where
  mean : List ℚ
  scale : List ℚ

/-- `scaler.transform`: per-feature `(x - mean) / scale`. -/
def scalerTransform (s : Scaler) (x : List ℚ) : List ℚ :=
  List.zipWith (fun xi p => (xi - p.1) / p.2) x (s.mean.zip s.scale)

/-- Full successful path of `predict_anomaly` (model loaded): extract,
scale, reconstruct in eval mode, mean-squared error, then the decision
logic.  The dropout mask stream is explicit to state determinism. -/
def predictAnomalyCore (layers : List Layer) (mask : ℕ → ℕ → Bool)
    (scaler : Scaler) (st : SvcState) (sensorValue : ℚ)
    (sensorType crit : List Char) : SvcResult × SvcState :=
  let feats := extractFeatures sensorValue sensorType
  let scaled := scalerTransform scaler feats
  let recon := netForward false mask layers scaled
  decisionLogic st (mseVec scaled recon) crit

/-- Outcome of a `predict_anomaly` call: either the successful dict (with the
successor state) or the structured "model not loaded" dict of
`autoencoder_service.py` lines 107-114 (both are returned values, never
raised exceptions). -/
inductive SvcResponse
  | ready (r : SvcResult) (st : SvcState)
  | notLoaded (is_anomaly : Bool) (anomaly_score reconstruction_error confidence : ℚ)
      (error : List Char)

/-- `AutoencoderAnomalyService.predict_anomaly` including the
`self.model_loaded` guard. -/
def predictAnomalyService (loaded : Bool) (layers : List Layer)
    (mask : ℕ → ℕ → Bool) (scaler : Scaler) (st : SvcState)
    (sensorValue : ℚ) (sensorType crit : List Char) : SvcResponse :=
  if loaded then
    let p := predictAnomalyCore layers mask scaler st sensorValue sensorType crit
    .ready p.1 p.2
  else
    .notLoaded false 0 0 0 ("Model not loaded".toList)

/-! ## ML API server (`api_server.py`) -/

/-- The fields of the `DetectionResult` model that the claims talk about
(`api_server.py` lines 251-260); `timestamp` and `sensorData` are omitted. -/
structure ApiResult where
  isAnomaly : Bool
  anomalyScore : ℚ
  reconstructionError : ℚ
  threshold : ℚ
  confidence : ℚ
  threatLevel : ThreatLevel
deriving DecidableEq

/-- `GridAnomalyDetector.detect_anomalies` (`reconstruction_autoencoder.py`
lines 287-300): the model is put in eval mode, per-sample reconstruction
errors are the row-wise mean squared differences, `anomaly_scores =
errors / threshold`, `predictions = (errors > threshold)` as 0/1. -/
def detectAnomalies (layers : List Layer) (mask : ℕ → ℕ → Bool) (thr : ℚ)
    (xs : List (List ℚ)) : List ℕ × List ℚ × List ℚ :=
  let errors := xs.map (fun x => mseVec x (netForward false mask layers x))
  (errors.map (fun e => if thr < e then 1 else 0),
   errors.map (fun e => e / thr), errors)

/-- `RealTimeDetectionServer.process_detection` (`api_server.py` lines
184-260) from the prepared, scaled feature vector onwards (the DataFrame
construction and label encoding are abstracted into the feature vector `x`):
one-sample `detect_anomalies`, threat-level banding, and the result with
`confidence = min(anomaly_score, 10.0) / 10.0`. -/
def apiProcessDetection (layers : List Layer) (mask : ℕ → ℕ → Bool)
    (thr : ℚ) (x : List ℚ) : ApiResult :=
  let e := mseVec x (netForward false mask layers x)
  let score := e / thr
  let isA := decide (thr < e)
  { isAnomaly := isA
    anomalyScore := score
    reconstructionError := e
    threshold := thr
    confidence := min score 10 / 10
    threatLevel := apiThreatLevel isA e thr }

/-- Outcome of the `/detect` route (`api_server.py` lines 131-140): either
the detection result or a raised `HTTPException` with a status code. -/
inductive ApiResponse
  | ok (r : ApiResult)
  | httpError (code : ℕ) (detail : List Char)

/-- The `/detect` route: `raise HTTPException(503, "Model not loaded")` when
the model is not loaded, otherwise the processed result. -/
def apiDetect (loaded : Bool) (layers : List Layer) (mask : ℕ → ℕ → Bool)
    (thr : ℚ) (x : List ℚ) : ApiResponse :=
  if loaded then .ok (apiProcessDetection layers mask thr x)
  else .httpError 503 ("Model not loaded".toList)

/-- The claim-shaped property for C5 at the API server: the call returns a
structured result (rather than raising) with `is_anomaly = false`,
reconstruction error `0`. -/
def apiStructuredNotReady (resp : ApiResponse) : Prop :=
  ∃ r : ApiResult, resp = .ok r ∧ r.isAnomaly = false ∧
    r.reconstructionError = 0

/-! ## Production server (`production_server.py`, lines 218-316) -/

/-- The result dict of `ProductionServer.process_detection` (fields the
claims mention). -/
structure ProdResult where
  isAnomaly : Bool
  anomalyScore : ℚ
  reconstructionError : ℚ
  threshold : ℚ
  confidence : ℚ
  threatLevel : ThreatLevel
deriving DecidableEq

/-- Outcome of `ProductionServer.process_detection`: the result dict, or a
raised `HTTPException` (the bare-`float` division
`abs(sensor_value - nominal_value) / nominal_value` raises
`ZeroDivisionError` when `nominal_value == 0`, which the surrounding
`except` turns into `HTTPException(500)`). -/
inductive ProdResponse
  | ok (r : ProdResult)
  | httpError (code : ℕ)

/-- `ProductionServer.process_detection` (`production_server.py` lines
218-316): rule-based demo detection.  `is_vm_attack` is the exact equality
`criticality == 'critical'`; the name-based rules use Python substring
tests on the lowercased sensor name; deviations above 50% also flag attack
data; `criticality == 'normal'` forces a normal classification. -/
def prodProcessDetection (v n : ℚ) (sensorName criticality : List Char) :
    ProdResponse :=
  if n = 0 then .httpError 500
  else
    let dev := |v - n| / n * 100
    let name := lowerStr sensorName
    let isVm := criticality = "critical".toList
    let attackData :=
      if isVm then true
      else
        let byName :=
          if containsSub ("voltage".toList) name then
            decide (400000 < v) || decide (v < n * (3/5))
          else if containsSub ("power".toList) name then decide (800000 < v)
          else if containsSub ("frequency".toList) name then
            decide (v < 58) || decide (62 < v)
          else false
        byName || decide (50 < dev)
    if criticality = "normal".toList ∧ ¬ isVm then
      .ok ⟨false, 10 + dev, 1/1000 + dev / 1000, 1/2,
           min ((10 + dev) / 100) 1, .NORMAL⟩
    else if attackData ∨ isVm then
      .ok ⟨true, 1000 + dev * 10, 1 + dev / 100, 1/2,
           min ((1000 + dev * 10) / 100) 1, .CRITICAL⟩
    else
      .ok ⟨false, 10 + dev, 1/1000 + dev / 1000, 1/2,
           min ((10 + dev) / 100) 1, .NORMAL⟩

/-- The claim-shaped property for C9: the request is classified anomalous
with threat level CRITICAL. -/
def prodClassifiedCritical (resp : ProdResponse) : Prop :=
  ∃ r : ProdResult, resp = .ok r ∧ r.isAnomaly = true ∧
    r.threatLevel = ThreatLevel.CRITICAL

/-! ## Numpy float semantics for `deviation_from_nominal` (C7)

`api_server.py` line 217 computes
`abs(df['sensor_value'] - df['nominal_value']) / df['nominal_value']` with
numpy float64 semantics: `x/0 = ±inf` for `x ≠ 0` and `0/0 = nan`, no
exception.  `prepare_features` (`reconstruction_autoencoder.py` line 148)
then applies `np.nan_to_num(X, nan=0.0)`, whose default replaces `+inf`
with `DBL_MAX` and `-inf` with `-DBL_MAX`. -/

inductive PyFloat
  | fin (q : ℚ)
  | pinf
  | ninf
  | nan
deriving DecidableEq

/-- Largest finite IEEE double, `(2 - 2^-52) * 2^1023 = (2^53 - 1) * 2^971`. -/
def dblMax : ℚ := (2 ^ 53 - 1) * 2 ^ 971

/-- Numpy float64 division of a finite value by a finite value. -/
def npDiv (x n : ℚ) : PyFloat :=
  if n = 0 then (if x = 0 then .nan else if 0 < x then .pinf else .ninf)
  else .fin (x / n)

/-- `deviation_from_nominal = abs(value - nominal) / nominal`
(`api_server.py` line 217), in numpy float semantics. -/
def deviationFromNominal (v n : ℚ) : PyFloat := npDiv |v - n| n

/-- `np.nan_to_num(·, nan=0.0)` with the default infinity replacements
(`reconstruction_autoencoder.py` line 148). -/
def nanToNum : PyFloat → ℚ
  | .fin q => q
  | .pinf => dblMax
  | .ninf => -dblMax
  | .nan => 0

/-- The `deviation_from_nominal` feature value that reaches the model. -/
def deviationFeature (v n : ℚ) : ℚ := nanToNum (deviationFromNominal v n)

/-! ## Training threshold (`reconstruction_autoencoder.py`, lines 249-265) -/

/-- `np.percentile(xs, 95)` with the default linear-interpolation method:
with `s` the sorted data and `h = 0.95 * (n - 1)`, the result is
`s[⌊h⌋] + (h - ⌊h⌋) * (s[⌈h⌉] - s[⌊h⌋])`. -/
def percentile95 (xs : List ℚ) : ℚ :=
  let s := xs.mergeSort (· ≤ ·)
  let h : ℚ := 19 * ((xs.length : ℚ) - 1) / 20
  let lo : ℕ := (⌊h⌋).toNat
  let hi : ℕ := (⌈h⌉).toNat
  s.getD lo 0 + (h - (lo : ℚ)) * (s.getD hi 0 - s.getD lo 0)

/-- Per-sample reconstruction errors on the validation set in eval mode
(`reconstruction_autoencoder.py` lines 250-257):
`torch.mean((batch_X - reconstructed) ** 2, dim=1)` collected over all
validation samples. -/
def valReconstructionErrors (layers : List Layer) (mask : ℕ → ℕ → Bool)
    (valSamples : List (List ℚ)) : List ℚ :=
  valSamples.map (fun x => mseVec x (netForward false mask layers x))

/-- `self.reconstruction_threshold = np.percentile(reconstruction_errors, 95)`
(`reconstruction_autoencoder.py` line 260); this value is what `save_model`
persists to `models/reconstruction_threshold.pkl`. -/
def trainedThreshold (layers : List Layer) (mask : ℕ → ℕ → Bool)
    (valSamples : List (List ℚ)) : ℚ :=
  percentile95 (valReconstructionErrors layers mask valSamples)

/-! ## Helper lemmas -/

theorem critScale_pos (crit : List Char) : 0 < critScale crit := by
  unfold critScale
  split_ifs <;> norm_num

theorem pushWindow_length_le (w : List Bool) (d : Bool)
    (hw : w.length ≤ 100) : (pushWindow w d).length ≤ 100 := by
  simp only [pushWindow]
  split_ifs with h
  · simp_all
  · simp_all

theorem pushWindow_eq_takeLast (w : List Bool) (d : Bool)
    (hw : w.length ≤ 100) : pushWindow w d = takeLast 100 (w ++ [d]) := by
  simp only [pushWindow, takeLast]
  split_ifs with h
  · have hlen : (w ++ [d]).length = 101 := by
      simp at h ⊢
      omega
    rw [hlen]
    norm_num
  · have hlen : (w ++ [d]).length ≤ 100 := by omega
    rw [Nat.sub_eq_zero_of_le hlen, List.drop_zero]

theorem layerForward_eval_mask (m m' : ℕ → Bool) (l : Layer) (x : List ℚ) :
    layerForward false m l x = layerForward false m' l x := by
  cases l <;> rfl

theorem netForward_eval_mask (m m' : ℕ → ℕ → Bool) (layers : List Layer)
    (x : List ℚ) : netForward false m layers x = netForward false m' layers x := by
  unfold netForward
  suffices h : ∀ ls i y, forwardAux false m i ls y = forwardAux false m' i ls y by
    exact h layers 0 x
  intro ls
  induction ls with
  | nil => intro i y; rfl
  | cons l ls ih =>
      intro i y
      rw [forwardAux, forwardAux, layerForward_eval_mask (m i) (m' i), ih]

/-! ## C1 -/

/-- C1: in the API server's model path the threat level computed from
`(reconstruction_error, threshold)` agrees with the spec's banding of the
ratio `r = error / threshold` at every input, boundary values included;
non-anomalous samples map to NORMAL. -/
theorem threat_level_banding_consistent (isA : Bool) (e t : ℚ) :
    apiThreatLevel isA e t = specThreatLevel isA (e / t) := by
  unfold apiThreatLevel specThreatLevel
  cases isA
  · rfl
  · by_cases h10 : 10 < e / t
    · simp [h10]
    · by_cases h5 : 5 < e / t
      · simp [h10, h5, not_lt.mp h10]
      · by_cases h2 : 2 < e / t
        · simp [h10, h5, h2, not_lt.mp h5]
        · simp [h10, h5, h2]

/-! ## C5 -/

/-- C5 counterexample: with the model not loaded, the ML API server's
`/detect` route does not return a structured not-ready result: it raises
`HTTPException(503)` instead, refuting the claim for this scoring path. -/
theorem notReady_api_raises :
    ¬ apiStructuredNotReady (apiDetect false [] (fun _ _ => false) 1 [1]) := by
  rintro ⟨r, h, -, -⟩
  simp [apiDetect] at h

/-- C5 (amended): when the model or scaler is not loaded, the backend
autoencoder service returns the structured not-ready dict
(`is_anomaly = false`, reconstruction error `0`, explicit error field) and
raises nothing, while the ML API server's `/detect` route instead raises
`HTTPException(503, "Model not loaded")`. -/
theorem notReady_structured_backend_http_api (layers : List Layer)
    (mask : ℕ → ℕ → Bool) (scaler : Scaler) (st : SvcState) (v : ℚ)
    (ty crit : List Char) (thr : ℚ) (x : List ℚ) :
    predictAnomalyService false layers mask scaler st v ty crit =
      SvcResponse.notLoaded false 0 0 0 ("Model not loaded".toList) ∧
    apiDetect false layers mask thr x =
      ApiResponse.httpError 503 ("Model not loaded".toList) := by
  exact ⟨rfl, rfl⟩

/-! ## C7 -/

/-- C7 counterexample: at `sensor_value = 1`, `nominal_value = 0` the
`deviation_from_nominal` feature that reaches the model is `DBL_MAX`
(the `inf` produced by the unguarded division, mapped by `np.nan_to_num`),
not the claimed `0`. -/
theorem deviation_zero_nominal_not_zero : deviationFeature 1 0 ≠ 0 := by
  have h : deviationFeature 1 0 = dblMax := by
    show nanToNum (npDiv |(1 : ℚ) - 0| 0) = dblMax
    rw [sub_zero]
    unfold npDiv
    rw [if_pos rfl, if_neg (by norm_num), if_pos (by norm_num)]
    rfl
  rw [h]
  unfold dblMax
  positivity

/-- C7 (amended): `deviation_from_nominal` equals `|value - nominal| /
nominal` whenever `nominal ≠ 0`; when `nominal = 0` the unguarded division
yields `inf` (for `value ≠ 0`), which `np.nan_to_num` converts to `DBL_MAX`
before it reaches the model, and `NaN → 0` when `value = 0` as well; no
exception is raised and no non-finite value reaches the model, but the
value is `DBL_MAX`, not `0`, for `nominal = 0, value ≠ 0`. -/
theorem deviation_feature_semantics (v n : ℚ) :
    (n ≠ 0 → deviationFeature v n = |v - n| / n) ∧
    (n = 0 → v ≠ 0 → deviationFeature v n = dblMax) ∧
    (n = 0 → v = 0 → deviationFeature v n = 0) := by
  refine ⟨fun hn => ?_, fun hn hv => ?_, fun hn hv => ?_⟩
  · simp [deviationFeature, deviationFromNominal, npDiv, nanToNum, hn]
  · subst hn
    show nanToNum (npDiv |v - 0| 0) = dblMax
    rw [sub_zero]
    unfold npDiv
    rw [if_pos rfl, if_neg (abs_ne_zero.mpr hv), if_pos (abs_pos.mpr hv)]
    rfl
  · subst hn; subst hv
    show nanToNum (npDiv |(0 : ℚ) - 0| 0) = 0
    rw [sub_zero, abs_zero]
    unfold npDiv
    rw [if_pos rfl, if_pos rfl]
    rfl

/-- C7 witness: the amended theorem evaluated at concrete inputs. -/
theorem deviation_feature_semantics_witness :
    ((2 : ℚ) ≠ 0 ∧ deviationFeature 3 2 = |(3 : ℚ) - 2| / 2) ∧
    deviationFeature 1 0 = dblMax ∧ deviationFeature 0 0 = 0 :=
  ⟨⟨by norm_num, (deviation_feature_semantics 3 2).1 (by norm_num)⟩,
   (deviation_feature_semantics 1 0).2.1 rfl (by norm_num),
   (deviation_feature_semantics 0 0).2.2 rfl rfl⟩

/-! ## C9 -/

/-- C9 counterexample: a request with `criticality = "critical"` but
`nominal_value = 0` is not classified at all: the bare-float division by
zero raises, and the production server answers `HTTPException(500)`, so the
claim's "regardless of ... nominal value" fails. -/
theorem critical_request_zero_nominal_not_classified :
    ¬ prodClassifiedCritical
        (prodProcessDetection 1 0 ("voltage".toList) ("critical".toList)) := by
  rintro ⟨r, h, -, -⟩
  simp [prodProcessDetection] at h

/-- C9 (amended): every production-server request with
`criticality = "critical"` and nonzero `nominal_value` is classified
`is_anomaly = true` with threat level CRITICAL, regardless of the sensor
value, the sensor name, or the model (the model is bypassed entirely). -/
theorem critical_requests_forced_anomalous (v n : ℚ)
    (name crit : List Char) (hn : n ≠ 0) (hc : crit = "critical".toList) :
    prodClassifiedCritical (prodProcessDetection v n name crit) := by
  subst hc
  unfold prodProcessDetection prodClassifiedCritical
  rw [if_neg hn]
  simp

/-- C9 witness: the amended theorem at a concrete attack request. -/
theorem critical_requests_forced_anomalous_witness :
    (345000 : ℚ) ≠ 0 ∧
    prodClassifiedCritical
      (prodProcessDetection 5 345000 ("voltage".toList) ("critical".toList)) :=
  ⟨by norm_num,
   critical_requests_forced_anomalous 5 345000 ("voltage".toList) _
     (by norm_num) rfl⟩

/-! ## Structural lemmas about the decision core -/

theorem decisionLogic_conf_eq (st : SvcState) (e : ℚ) (crit : List Char) :
    ((decisionLogic st e crit).1).confidence =
      svcConfidence ((decisionLogic st e crit).1).is_anomaly e
        ((decisionLogic st e crit).1).threshold := by
  simp only [decisionLogic]
  split_ifs <;> rfl

theorem decisionLogic_threshold_pos (st : SvcState) (e : ℚ) (crit : List Char) :
    0 < ((decisionLogic st e crit).1).threshold := by
  have h0 : (0 : ℚ) < svcBaseThreshold := by norm_num [svcBaseThreshold]
  have hc := critScale_pos crit
  simp only [decisionLogic]
  split_ifs <;>
    first
      | exact mul_pos (mul_pos h0 hc) (by norm_num)
      | exact mul_pos h0 hc

theorem decisionLogic_anomaly_eq (st : SvcState) (e : ℚ) (crit : List Char) :
    ((decisionLogic st e crit).1).is_anomaly =
      decide (((decisionLogic st e crit).1).threshold < e) := by
  simp only [decisionLogic]
  split_ifs <;> rfl

theorem decisionLogic_window (st : SvcState) (e : ℚ) (crit : List Char) :
    ((decisionLogic st e crit).2).window =
      pushWindow st.window (decide (svcBaseThreshold * critScale crit < e)) := by
  simp only [decisionLogic]
  split_ifs <;> rfl

theorem svcConfidence_bounds (isA : Bool) (e t : ℚ) (he : 0 ≤ e) (ht : 0 < t)
    (hd : isA = decide (t < e)) :
    0 ≤ svcConfidence isA e t ∧ svcConfidence isA e t ≤ 1 ∧
    (isA = false → 1/10 ≤ svcConfidence isA e t) := by
  subst hd
  unfold svcConfidence
  by_cases h : t < e
  · simp only [decide_eq_true h, if_true]
    refine ⟨le_min (div_nonneg (by linarith) ht.le) zero_le_one, min_le_right _ _, ?_⟩
    simp [h]
  · simp only [decide_eq_false h, Bool.false_eq_true, if_false]
    have hdiv : 0 ≤ e / t := div_nonneg he ht.le
    exact ⟨le_trans (by norm_num) (le_max_right _ _),
      max_le (by linarith) (by norm_num), fun _ => le_max_right _ _⟩

/-! ## C4 -/

/-- C4 counterexample: the API server's `process_detection` computes
`confidence = min(anomaly_score, 10)/10`, which differs from the
spec formula at a concrete input (a normal sample with reconstruction
error 0 gets confidence 0 from the API server, but 1.0 from the claimed
formula), so the claim fails for that deployed variant. -/
theorem api_confidence_diverges :
    (apiProcessDetection [] (fun _ _ => false) 1 [1]).confidence ≠
      specConfidence (apiProcessDetection [] (fun _ _ => false) 1 [1]).isAnomaly
        (apiProcessDetection [] (fun _ _ => false) 1 [1]).reconstructionError
        (apiProcessDetection [] (fun _ _ => false) 1 [1]).threshold := by
  have h : mseVec [1] (netForward false (fun _ _ => false) [] [1]) = 0 := by
    norm_num [mseVec, netForward, forwardAux]
  norm_num [apiProcessDetection, h, specConfidence, apiThreatLevel]

/-- What the amended C4 asserts about a backend scoring call with
reconstruction error `e`: the backend service's confidence follows the
spec formula against the returned (post-adaptation) threshold, lies in
`[0, 1]`, never drops below 0.1 on a normal verdict — while the ML API
server instead returns `min(anomaly_score, 10)/10`. -/
def confidenceProp (st : SvcState) (e : ℚ) (crit : List Char) : Prop :=
  ((decisionLogic st e crit).1).confidence =
    specConfidence ((decisionLogic st e crit).1).is_anomaly e
      ((decisionLogic st e crit).1).threshold ∧
  0 ≤ ((decisionLogic st e crit).1).confidence ∧
  ((decisionLogic st e crit).1).confidence ≤ 1 ∧
  (((decisionLogic st e crit).1).is_anomaly = false →
    1/10 ≤ ((decisionLogic st e crit).1).confidence) ∧
  (∀ layers mask thr x, (apiProcessDetection layers mask thr x).confidence =
    min ((apiProcessDetection layers mask thr x).anomalyScore) 10 / 10)

/-- C4 (amended): the backend autoencoder service computes confidence by
the claimed formulas (with the bounds the claim states), but the ML API
server variant computes `min(anomaly_score, 10)/10` instead. -/
theorem confidence_formula_per_variant (st : SvcState) (e : ℚ)
    (crit : List Char) (he : 0 ≤ e) : confidenceProp st e crit := by
  have h1 := decisionLogic_conf_eq st e crit
  have h2 := decisionLogic_threshold_pos st e crit
  have h3 := decisionLogic_anomaly_eq st e crit
  have hb := svcConfidence_bounds _ e _ he h2 h3
  refine ⟨?_, ?_, ?_, ?_, fun layers mask thr x => rfl⟩
  · rw [h1]; rfl
  · rw [h1]; exact hb.1
  · rw [h1]; exact hb.2.1
  · intro hfalse; rw [h1]; exact hb.2.2 hfalse

/-- C4 witness: the amended property at a concrete scoring call. -/
theorem confidence_formula_per_variant_witness :
    (0 : ℚ) ≤ 1 ∧ confidenceProp ⟨[], svcBaseThreshold⟩ 1 [] :=
  ⟨by norm_num, confidence_formula_per_variant ⟨[], svcBaseThreshold⟩ 1 [] (by norm_num)⟩

/-! ## C6 -/

/-- C6: inference is deterministic: for a fixed network, scaler, and
service state, a scoring call's full output (every result field and the
successor state) does not depend on the dropout mask stream, because both
the backend service and `detect_anomalies` run the network in eval mode;
hence two calls with identical inputs from identical state agree. -/
theorem inference_deterministic (layers : List Layer) (m1 m2 : ℕ → ℕ → Bool)
    (scaler : Scaler) (st : SvcState) (v : ℚ) (ty crit : List Char)
    (thr : ℚ) (xs : List (List ℚ)) :
    predictAnomalyService true layers m1 scaler st v ty crit =
      predictAnomalyService true layers m2 scaler st v ty crit ∧
    detectAnomalies layers m1 thr xs = detectAnomalies layers m2 thr xs := by
  have hf : ∀ x, netForward false m1 layers x = netForward false m2 layers x :=
    fun x => netForward_eval_mask m1 m2 layers x
  constructor
  · simp only [predictAnomalyService, predictAnomalyCore, hf]
  · simp only [detectAnomalies, hf]

/-! ## C2 -/

/-- What C2 asserts about one scoring call: the rolling window keeps at
most the last 100 decisions (FIFO), no adaptation below 20 accumulated
decisions, and with at least 20 decisions a trailing anomaly rate above
0.15 (below 0.10) re-decides against the criticality-scaled threshold
times 1.1 (times 0.95). -/
def adaptiveCapProp (st : SvcState) (e : ℚ) (crit : List Char) : Prop :=
  ((decisionLogic st e crit).2).window.length ≤ 100 ∧
  ((decisionLogic st e crit).2).window =
    takeLast 100 (st.window ++ [decide (svcBaseThreshold * critScale crit < e)]) ∧
  (((decisionLogic st e crit).2).window.length < 20 →
    ((decisionLogic st e crit).1).threshold = svcBaseThreshold * critScale crit ∧
    ((decisionLogic st e crit).1).is_anomaly =
      decide (svcBaseThreshold * critScale crit < e)) ∧
  (20 ≤ ((decisionLogic st e crit).2).window.length →
    ((3/20 : ℚ) < ((((decisionLogic st e crit).2).window.count true : ℚ) /
        (((decisionLogic st e crit).2).window.length : ℚ)) →
      ((decisionLogic st e crit).1).threshold =
        svcBaseThreshold * critScale crit * (11/10) ∧
      ((decisionLogic st e crit).1).is_anomaly =
        decide (svcBaseThreshold * critScale crit * (11/10) < e)) ∧
    (((((decisionLogic st e crit).2).window.count true : ℚ) /
        (((decisionLogic st e crit).2).window.length : ℚ)) < 1/10 →
      ((decisionLogic st e crit).1).threshold =
        svcBaseThreshold * critScale crit * (19/20) ∧
      ((decisionLogic st e crit).1).is_anomaly =
        decide (svcBaseThreshold * critScale crit * (19/20) < e)) ∧
    ((1/10 : ℚ) ≤ ((((decisionLogic st e crit).2).window.count true : ℚ) /
        (((decisionLogic st e crit).2).window.length : ℚ)) →
      ((((decisionLogic st e crit).2).window.count true : ℚ) /
        (((decisionLogic st e crit).2).window.length : ℚ)) ≤ 3/20 →
      ((decisionLogic st e crit).1).threshold = svcBaseThreshold * critScale crit ∧
      ((decisionLogic st e crit).1).is_anomaly =
        decide (svcBaseThreshold * critScale crit < e)))

/-- C2: the adaptive-rate-capping policy of the backend service behaves
exactly as claimed on every successful scoring call, provided the window
invariant (at most 100 stored decisions) held before the call. -/
theorem adaptive_rate_capping (st : SvcState) (e : ℚ) (crit : List Char)
    (hw : st.window.length ≤ 100) : adaptiveCapProp st e crit := by
  have hwin := decisionLogic_window st e crit
  unfold adaptiveCapProp
  rw [hwin]
  refine ⟨pushWindow_length_le _ _ hw, pushWindow_eq_takeLast _ _ hw, ?_, ?_⟩
  · intro hlen
    simp only [decisionLogic]
    rw [if_neg (by omega)]
    exact ⟨rfl, rfl⟩
  · intro hlen
    refine ⟨fun hr => ?_, fun hr => ?_, fun hr1 hr2 => ?_⟩
    · simp only [decisionLogic]
      rw [if_pos hlen, if_pos hr]
      exact ⟨rfl, rfl⟩
    · simp only [decisionLogic]
      rw [if_pos hlen, if_neg (by intro h; linarith), if_pos hr]
      exact ⟨rfl, rfl⟩
    · simp only [decisionLogic]
      rw [if_pos hlen, if_neg (not_lt.mpr hr2), if_neg (not_lt.mpr hr1)]
      exact ⟨rfl, rfl⟩

/-- C2 witness: the adaptive-capping property at a concrete call from the
initial (empty-window) state. -/
theorem adaptive_rate_capping_witness :
    (⟨[], svcBaseThreshold⟩ : SvcState).window.length ≤ 100 ∧
    adaptiveCapProp ⟨[], svcBaseThreshold⟩ 1 [] :=
  ⟨by norm_num, adaptive_rate_capping ⟨[], svcBaseThreshold⟩ 1 [] (by norm_num)⟩

/-! ## C8 -/

theorem capped_threshold_eq (st : SvcState) (e : ℚ) (crit : List Char)
    (h : ((decisionLogic st e crit).1).error_rate_capped = true) :
    ((decisionLogic st e crit).1).threshold =
      svcBaseThreshold * critScale crit * (11/10) := by
  revert h
  simp only [decisionLogic]
  split_ifs <;> intro h <;> first | rfl | simp at h

/-- C8 counterexample: a concrete stream (window of 20 anomalous decisions,
then two identical low-error calls) keeps the trailing anomaly rate above
0.15 on both calls (`error_rate_capped = true`), yet the second call's
effective threshold is not strictly above the first call's: the adjustment
is re-derived from the fixed criticality-scaled threshold each call and
does not compound, so the threshold does not increase monotonically. -/
theorem threshold_not_strictly_increasing :
    ((decisionLogic ⟨List.replicate 20 true, svcBaseThreshold⟩ (1/100) []).1).error_rate_capped = true ∧
    ((decisionLogic (decisionLogic ⟨List.replicate 20 true, svcBaseThreshold⟩ (1/100) []).2
        (1/100) []).1).error_rate_capped = true ∧
    ¬ (((decisionLogic ⟨List.replicate 20 true, svcBaseThreshold⟩ (1/100) []).1).threshold <
       ((decisionLogic (decisionLogic ⟨List.replicate 20 true, svcBaseThreshold⟩ (1/100) []).2
          (1/100) []).1).threshold) := by
  norm_num [decisionLogic, pushWindow, svcBaseThreshold, critScale, containsSub, lowerStr,
    List.replicate, svcConfidence]

/-- C8 (amended): while the trailing anomaly rate stays above 0.15 (the
`error_rate_capped` flag), every call's effective threshold equals the
criticality-scaled threshold times 1.1 — a fixed value, so consecutive
capped calls with the same criticality yield equal (not strictly
increasing) effective thresholds, and the adjustment never compounds. -/
theorem threshold_cap_is_constant (st : SvcState) (e1 e2 : ℚ)
    (crit : List Char)
    (h1 : ((decisionLogic st e1 crit).1).error_rate_capped = true)
    (h2 : ((decisionLogic (decisionLogic st e1 crit).2 e2 crit).1).error_rate_capped = true) :
    ((decisionLogic st e1 crit).1).threshold =
      svcBaseThreshold * critScale crit * (11/10) ∧
    ((decisionLogic (decisionLogic st e1 crit).2 e2 crit).1).threshold =
      ((decisionLogic st e1 crit).1).threshold := by
  refine ⟨capped_threshold_eq st e1 crit h1, ?_⟩
  rw [capped_threshold_eq st e1 crit h1, capped_threshold_eq _ e2 crit h2]

/-- C8 witness: the amended theorem at the concrete capped stream. -/
theorem threshold_cap_is_constant_witness :
    ((decisionLogic ⟨List.replicate 20 true, svcBaseThreshold⟩ (1/50) []).1).error_rate_capped = true ∧
    ((decisionLogic (decisionLogic ⟨List.replicate 20 true, svcBaseThreshold⟩ (1/50) []).2
        (1/50) []).1).error_rate_capped = true ∧
    (((decisionLogic ⟨List.replicate 20 true, svcBaseThreshold⟩ (1/50) []).1).threshold =
      svcBaseThreshold * critScale [] * (11/10) ∧
     ((decisionLogic (decisionLogic ⟨List.replicate 20 true, svcBaseThreshold⟩ (1/50) []).2
        (1/50) []).1).threshold =
      ((decisionLogic ⟨List.replicate 20 true, svcBaseThreshold⟩ (1/50) []).1).threshold) := by
  have hc1 : ((decisionLogic ⟨List.replicate 20 true, svcBaseThreshold⟩ (1/50) []).1).error_rate_capped = true := by
    norm_num [decisionLogic, pushWindow, svcBaseThreshold, critScale, containsSub, lowerStr,
      List.replicate, svcConfidence]
  have hc2 : ((decisionLogic (decisionLogic ⟨List.replicate 20 true, svcBaseThreshold⟩ (1/50) []).2
      (1/50) []).1).error_rate_capped = true := by
    norm_num [decisionLogic, pushWindow, svcBaseThreshold, critScale, containsSub, lowerStr,
      List.replicate, svcConfidence]
  exact ⟨hc1, hc2, threshold_cap_is_constant _ _ _ _ hc1 hc2⟩

/-! ## C10 -/

/-- C10: the decision appended to the rolling window is always the one
made against the pre-adaptation (criticality-scaled) threshold — the new
window is the last 100 of the old window plus that pre-adaptation decision
in every branch — and at a concrete capped call the stored entry (`true`)
differs from the returned, re-decided `is_anomaly` (`false`), showing the
window is not updated after the adaptive flip. -/
theorem window_entry_pre_adaptation (st : SvcState) (e : ℚ)
    (crit : List Char) (hw : st.window.length ≤ 100) :
    ((decisionLogic st e crit).2).window =
      takeLast 100 (st.window ++ [decide (svcBaseThreshold * critScale crit < e)]) ∧
    (((decisionLogic ⟨List.replicate 20 true, svcBaseThreshold⟩ (21/50) []).1).is_anomaly = false ∧
     ((decisionLogic ⟨List.replicate 20 true, svcBaseThreshold⟩ (21/50) []).2).window.getLast? =
       some true) := by
  constructor
  · rw [decisionLogic_window]
    exact pushWindow_eq_takeLast _ _ hw
  · norm_num [decisionLogic, pushWindow, svcBaseThreshold, critScale, containsSub, lowerStr,
      List.replicate, svcConfidence]

/-- C10 witness: the theorem at a concrete call from the empty-window
state. -/
theorem window_entry_pre_adaptation_witness :
    (⟨[], svcBaseThreshold⟩ : SvcState).window.length ≤ 100 ∧
    (((decisionLogic ⟨[], svcBaseThreshold⟩ 1 []).2).window =
      takeLast 100 ((⟨[], svcBaseThreshold⟩ : SvcState).window ++
        [decide (svcBaseThreshold * critScale [] < 1)]) ∧
     (((decisionLogic ⟨List.replicate 20 true, svcBaseThreshold⟩ (21/50) []).1).is_anomaly = false ∧
      ((decisionLogic ⟨List.replicate 20 true, svcBaseThreshold⟩ (21/50) []).2).window.getLast? =
        some true)) :=
  ⟨by norm_num, window_entry_pre_adaptation ⟨[], svcBaseThreshold⟩ 1 [] (by norm_num)⟩

/-! ## C3 -/

theorem sorted_count_above (s : List ℚ) (hsort : s.Sorted (· ≤ ·)) (lo : ℕ)
    (hlo : lo < s.length) (p : ℚ) (hp : s.getD lo 0 ≤ p) :
    s.countP (fun x => decide (p < x)) ≤ s.length - (lo + 1) := by
  conv_lhs => rw [← List.take_append_drop (lo + 1) s]
  rw [List.countP_append]
  have h0 : (s.take (lo + 1)).countP (fun x => decide (p < x)) = 0 := by
    rw [List.countP_eq_zero]
    intro x hx
    simp only [decide_eq_true_eq, not_lt]
    obtain ⟨i, hi2, hxi⟩ := List.getElem_of_mem hx
    have hi3 : i < lo + 1 ∧ i < s.length := by
      constructor <;>
        · have := hi2
          rw [List.length_take] at this
          omega
    rw [← hxi, List.getElem_take s]
    have hg : s.get ⟨i, hi3.2⟩ ≤ s.get ⟨lo, hlo⟩ := by
      apply hsort.rel_get_of_le
      simp only [Fin.mk_le_mk]
      omega
    have hgd : s.getD lo 0 = s.get ⟨lo, hlo⟩ := by
      rw [List.getD_eq_getElem s 0 hlo]
      rfl
    calc s[i] = s.get ⟨i, hi3.2⟩ := rfl
      _ ≤ s.get ⟨lo, hlo⟩ := hg
      _ = s.getD lo 0 := hgd.symm
      _ ≤ p := hp
  rw [h0, Nat.zero_add]
  calc (s.drop (lo + 1)).countP (fun x => decide (p < x))
      ≤ (s.drop (lo + 1)).length := List.countP_le_length _
    _ = s.length - (lo + 1) := List.length_drop _ _

/-- At most `(n - 1 + 19) / 20 ≈ 5%` of the data lies strictly above its
own 95th percentile (numpy linear interpolation). -/
theorem percentile95_count_above (xs : List ℚ) (hne : xs ≠ []) :
    20 * (xs.countP (fun x => decide (percentile95 xs < x))) ≤ xs.length + 18 := by
  have hn1 : 1 ≤ xs.length := List.length_pos.mpr hne
  set Q : ℚ := 19 * ((xs.length : ℚ) - 1) / 20 with hQ
  set lo : ℕ := (⌊Q⌋).toNat with hlodef
  set hi : ℕ := (⌈Q⌉).toNat with hhidef
  set s : List ℚ := xs.mergeSort (· ≤ ·) with hsdef
  have hdef : percentile95 xs = s.getD lo 0 + (Q - (lo : ℚ)) * (s.getD hi 0 - s.getD lo 0) := rfl
  have hperm : List.Perm s xs := List.mergeSort_perm xs _
  have hsort : s.Sorted (· ≤ ·) := List.sorted_mergeSort' xs
  have hlen : s.length = xs.length := hperm.length_eq
  have hcast1 : (1 : ℚ) ≤ (xs.length : ℚ) := by exact_mod_cast hn1
  have hQ0 : 0 ≤ Q := by
    rw [hQ]
    apply div_nonneg _ (by norm_num)
    nlinarith
  have hfl : (lo : ℚ) ≤ Q := by
    have h1 : ((lo : ℤ) : ℚ) ≤ Q := by
      rw [hlodef, Int.toNat_of_nonneg (Int.floor_nonneg.mpr hQ0)]
      exact Int.floor_le Q
    exact_mod_cast h1
  have hfl2 : Q - 1 < (lo : ℚ) := by
    have h1 : Q - 1 < ((lo : ℤ) : ℚ) := by
      rw [hlodef, Int.toNat_of_nonneg (Int.floor_nonneg.mpr hQ0)]
      exact Int.sub_one_lt_floor Q
    exact_mod_cast h1
  have hceil : Q ≤ (hi : ℚ) := by
    have h1 : Q ≤ ((hi : ℤ) : ℚ) := by
      rw [hhidef, Int.toNat_of_nonneg (Int.ceil_nonneg hQ0)]
      exact Int.le_ceil Q
    exact_mod_cast h1
  have hQm : Q ≤ (xs.length : ℚ) - 1 := by
    rw [hQ]
    nlinarith
  have hhi_lt : hi < xs.length := by
    have h1 : (⌈Q⌉ : ℤ) ≤ (xs.length : ℤ) - 1 := by
      apply Int.ceil_le.mpr
      push_cast
      linarith
    omega
  have hlo_le_hi : lo ≤ hi := by
    have h2 : (lo : ℚ) ≤ (hi : ℚ) := le_trans hfl hceil
    exact_mod_cast h2
  have hlo_lt : lo < s.length := by omega
  have hhi_lt2 : hi < s.length := by omega
  have hba : s.getD lo 0 ≤ s.getD hi 0 := by
    rw [List.getD_eq_getElem s 0 hlo_lt, List.getD_eq_getElem s 0 hhi_lt2]
    have hg : s.get ⟨lo, hlo_lt⟩ ≤ s.get ⟨hi, hhi_lt2⟩ := by
      apply hsort.rel_get_of_le
      simp only [Fin.mk_le_mk]
      exact hlo_le_hi
    exact hg
  have hp : s.getD lo 0 ≤ percentile95 xs := by
    rw [hdef]
    have h1 : 0 ≤ (Q - (lo : ℚ)) * (s.getD hi 0 - s.getD lo 0) :=
      mul_nonneg (sub_nonneg.mpr hfl) (sub_nonneg.mpr hba)
    linarith
  have hcount : xs.countP (fun x => decide (percentile95 xs < x)) =
      s.countP (fun x => decide (percentile95 xs < x)) :=
    (hperm.countP_eq _).symm
  have hmain := sorted_count_above s hsort lo hlo_lt (percentile95 xs) hp
  rw [hcount]
  have harith : 19 * (xs.length - 1) ≤ 20 * lo + 19 := by
    have h1 : 19 * ((xs.length : ℚ) - 1) < 20 * (lo : ℚ) + 20 := by
      rw [hQ] at hfl2
      nlinarith
    have h2 : ((19 * (xs.length - 1) : ℕ) : ℚ) < ((20 * lo + 20 : ℕ) : ℚ) := by
      push_cast [Nat.cast_sub hn1]
      linarith
    have h3 : 19 * (xs.length - 1) < 20 * lo + 20 := by exact_mod_cast h2
    omega
  omega

/-- C3: the persisted reconstruction threshold is the numpy 95th
percentile (linear interpolation) of the per-sample mean-squared
reconstruction errors on the held-out validation set — by construction
(`trainedThreshold` is defined as that percentile of
`valReconstructionErrors`) — and consequently at most about 5% of the
validation samples (precisely: `20 · count ≤ n + 18`) have reconstruction
error strictly above the threshold. -/
theorem trained_threshold_five_percent (layers : List Layer)
    (mask : ℕ → ℕ → Bool) (valSamples : List (List ℚ))
    (h : valSamples ≠ []) :
    20 * ((valReconstructionErrors layers mask valSamples).countP
        (fun e => decide (trainedThreshold layers mask valSamples < e))) ≤
      valSamples.length + 18 := by
  have hmap : (valReconstructionErrors layers mask valSamples).length =
      valSamples.length := List.length_map _ _
  have hne : valReconstructionErrors layers mask valSamples ≠ [] := by
    simp only [valReconstructionErrors, ne_eq, List.map_eq_nil_iff]
    exact h
  have hmain := percentile95_count_above
    (valReconstructionErrors layers mask valSamples) hne
  rw [hmap] at hmain
  exact hmain

/-- C3 witness: the threshold property at a concrete one-sample validation
set with the identity (empty-layer) network. -/
theorem trained_threshold_five_percent_witness :
    ([[(1 : ℚ)]] ≠ ([] : List (List ℚ))) ∧
    20 * ((valReconstructionErrors [] (fun _ _ => false) [[(1 : ℚ)]]).countP
        (fun e => decide (trainedThreshold [] (fun _ _ => false) [[(1 : ℚ)]] < e))) ≤
      ([[(1 : ℚ)]] : List (List ℚ)).length + 18 :=
  ⟨by simp, trained_threshold_five_percent [] (fun _ _ => false) [[(1 : ℚ)]] (by simp)⟩
